import Mathlib

/-!
Verification development for the clinic-management front end
(`practicaFrontEnd`): a shallow embedding of the client-side session store,
the authenticated fetch wrapper, the navigation gate, and the doctor/patient
entity-list controllers, together with theorems settling each claim of the
specification against the embedded code.

Conventions of the embedding:
* client-side storage content is an `Option String` (JavaScript
  `localStorage.getItem` yields `null` or a string);
* the network is an explicit parameter: handlers either take the response as
  an event parameter or take a function `Request → NetResponse`, and every
  handler returns the list of requests it issued, in order, so that
  "issues no network call" is the trace being `[]`;
* JavaScript exceptions are `Option`/`Except` failures; a `try`/`catch`
  becomes a `match` on the failing computation;
* external library functions used by the code (`atob`, `JSON.parse`,
  string `toLowerCase`/`trim`/`includes`) are modelled explicitly below.
-/

namespace Clinic

/-! ## JavaScript string and value primitives -/

/-- Truthiness of a JavaScript `string | null` value: `null` and the empty
string are falsy (`if (!token) ...`). -/
def jsTruthyStr : Option String → Bool
  | none => false
  | some s => s ≠ ""

/-- Template-literal interpolation of a `string | null` value: JavaScript
renders `null` as the text "null" inside a template string. -/
def jsInterpolate : Option String → String
  | none => "null"
  | some s => s

/-- Model of JavaScript `String.prototype.toLowerCase` (ASCII case folding,
which is what the repository's data uses). -/
def jsToLowerCase (s : String) : String := String.mk (s.toList.map Char.toLower)

/-- Whitespace characters removed by `String.prototype.trim`. -/
def isJsWs (c : Char) : Bool :=
  c == ' ' || c == '\t' || c == '\n' || c == '\r' || c == '\x0c'

/-- Model of JavaScript `String.prototype.trim`. -/
def jsTrim (s : String) : String :=
  String.mk (((s.toList.dropWhile isJsWs).reverse.dropWhile isJsWs).reverse)

/-- Decides whether the second list starts the first list. -/
def listStartsWith : List Char → List Char → Bool
  | [], _ => true
  | _ :: _, [] => false
  | a :: as, b :: bs => a == b && listStartsWith as bs

/-- Decides whether `needle` occurs contiguously inside `hay`. -/
def listContainsSub (needle : List Char) : List Char → Bool
  | [] => needle.isEmpty
  | b :: bs => listStartsWith needle (b :: bs) || listContainsSub needle bs

/-- Model of JavaScript `String.prototype.includes`: `jsIncludes s sub`
is `s.includes(sub)`. -/
def jsIncludes (s sub : String) : Bool := listContainsSub sub.toList s.toList

/-! ## JSON values -/

/-- JSON values as the external JSON library delivers them (numbers are
restricted to integers, which covers every value the repository exchanges). -/
inductive Json where
  | null
  | bool (b : Bool)
  | num (n : Int)
  | str (s : String)
  | arr (elems : List Json)
  | obj (fields : List (String × Json))

/-- Looks up a field of a JSON object; property access on any non-object,
non-null value yields `undefined`, modelled as `none` (access on `null`
throws and is handled separately at each use site). -/
def lookupField : List (String × Json) → String → Option Json
  | [], _ => none
  | (k, v) :: rest, key => if k = key then some v else lookupField rest key

/-- Property access `value.key` for a JavaScript value that is not `null`:
an object yields the field (or `undefined` = `none`); every other value has
no such property and yields `undefined`. -/
def jsGetField : Json → String → Option Json
  | Json.obj fields, key => lookupField fields key
  | _, _ => none

/-- Truthiness of a JSON value under JavaScript coercion. -/
def jsTruthyJson : Json → Bool
  | Json.null => false
  | Json.bool b => b
  | Json.num n => n ≠ 0
  | Json.str s => s ≠ ""
  | Json.arr _ => true
  | Json.obj _ => true

mutual

/-- String coercion `String(v)` of a JSON value, as JavaScript performs it
when a value becomes an `Error` message or is joined into text. -/
def jsDisplayString : Json → String
  | Json.null => "null"
  | Json.bool true => "true"
  | Json.bool false => "false"
  | Json.num n => toString n
  | Json.str s => s
  | Json.arr es => jsDisplayList es
  | Json.obj _ => "[object Object]"

/-- Array stringification: elements joined by commas, `null` elements
rendered empty, per `Array.prototype.toString`. -/
def jsDisplayList : List Json → String
  | [] => ""
  | [e] => jsDisplayElem e
  | e :: rest => jsDisplayElem e ++ "," ++ jsDisplayList rest

/-- Element rendering inside an array join: `null` becomes the empty
string, anything else its string coercion. -/
def jsDisplayElem : Json → String
  | Json.null => ""
  | e => jsDisplayString e

end

/-! ## Model of `JSON.parse` -/

/-- Drops leading JSON whitespace. -/
def skipWs (s : List Char) : List Char :=
  s.dropWhile (fun c => c == ' ' || c == '\t' || c == '\n' || c == '\r')

/-- Parses the body of a JSON string literal after the opening quote,
handling the simple escapes; fails (as `JSON.parse` throws) on anything
else. -/
def parseStringBody : List Char → Option (String × List Char)
  | [] => none
  | '"' :: rest => some ("", rest)
  | '\\' :: c :: rest =>
    let mapped : Option Char :=
      match c with
      | '"' => some '"'
      | '\\' => some '\\'
      | '/' => some '/'
      | 'n' => some '\n'
      | 't' => some '\t'
      | 'r' => some '\r'
      | _ => none
    match mapped with
    | none => none
    | some ch =>
      match parseStringBody rest with
      | some (s, rem) => some (String.mk (ch :: s.toList), rem)
      | none => none
  | '\\' :: [] => none
  | c :: rest =>
    match parseStringBody rest with
    | some (s, rem) => some (String.mk (c :: s.toList), rem)
    | none => none

/-- Parses an integer JSON number (optional minus sign and digits). -/
def parseNumber (s : List Char) : Option (Int × List Char) :=
  let (neg, s1) := match s with
    | '-' :: rest => (true, rest)
    | _ => (false, s)
  let digits := s1.takeWhile Char.isDigit
  let rest := s1.dropWhile Char.isDigit
  if digits.isEmpty then none
  else
    let n : Nat := digits.foldl (fun acc c => acc * 10 + (c.toNat - 48)) 0
    some (if neg then -(n : Int) else (n : Int), rest)

mutual

/-- Fuel-indexed JSON value parser. -/
def parseJsonVal : Nat → List Char → Option (Json × List Char)
  | 0, _ => none
  | Nat.succ fuel, s =>
    match skipWs s with
    | 'n' :: 'u' :: 'l' :: 'l' :: rest => some (Json.null, rest)
    | 't' :: 'r' :: 'u' :: 'e' :: rest => some (Json.bool true, rest)
    | 'f' :: 'a' :: 'l' :: 's' :: 'e' :: rest => some (Json.bool false, rest)
    | '"' :: rest =>
      match parseStringBody rest with
      | some (str, rem) => some (Json.str str, rem)
      | none => none
    | '[' :: rest =>
      match skipWs rest with
      | ']' :: rem => some (Json.arr [], rem)
      | other =>
        match parseJsonItems fuel other with
        | some (items, rem) => some (Json.arr items, rem)
        | none => none
    | '\x7b' :: rest =>
      match skipWs rest with
      | '\x7d' :: rem => some (Json.obj [], rem)
      | other =>
        match parseJsonFields fuel other with
        | some (fields, rem) => some (Json.obj fields, rem)
        | none => none
    | other =>
      match parseNumber other with
      | some (n, rem) => some (Json.num n, rem)
      | none => none

/-- Parses the comma-separated items of a non-empty JSON array, up to and
including the closing bracket. -/
def parseJsonItems : Nat → List Char → Option (List Json × List Char)
  | 0, _ => none
  | Nat.succ fuel, s =>
    match parseJsonVal fuel s with
    | none => none
    | some (v, rest) =>
      match skipWs rest with
      | ',' :: more =>
        match parseJsonItems fuel more with
        | some (items, rem) => some (v :: items, rem)
        | none => none
      | ']' :: rem => some ([v], rem)
      | _ => none

/-- Parses the comma-separated fields of a non-empty JSON object, up to and
including the closing brace. -/
def parseJsonFields : Nat → List Char → Option (List (String × Json) × List Char)
  | 0, _ => none
  | Nat.succ fuel, s =>
    match skipWs s with
    | '"' :: rest =>
      match parseStringBody rest with
      | none => none
      | some (key, afterKey) =>
        match skipWs afterKey with
        | ':' :: afterColon =>
          match parseJsonVal fuel afterColon with
          | none => none
          | some (v, rest2) =>
            match skipWs rest2 with
            | ',' :: more =>
              match parseJsonFields fuel more with
              | some (fields, rem) => some ((key, v) :: fields, rem)
              | none => none
            | '\x7d' :: rem => some ([(key, v)], rem)
            | _ => none
        | _ => none
    | _ => none

end

/-- Model of `JSON.parse`: `none` when the library would throw. -/
def jsonParse (s : String) : Option Json :=
  match parseJsonVal (2 * s.length + 8) s.toList with
  | some (j, rest) => if (skipWs rest).isEmpty then some j else none
  | none => none

/-! ## Model of `atob` (forgiving base64 decode) -/

/-- Value of a base64 alphabet character. -/
def b64Val (c : Char) : Option Nat :=
  if 'A' ≤ c ∧ c ≤ 'Z' then some (c.toNat - 65)
  else if 'a' ≤ c ∧ c ≤ 'z' then some (c.toNat - 97 + 26)
  else if '0' ≤ c ∧ c ≤ '9' then some (c.toNat - 48 + 52)
  else if c = '+' then some 62
  else if c = '/' then some 63
  else none

/-- ASCII whitespace removed by the forgiving-base64 algorithm. -/
def isB64Ws (c : Char) : Bool :=
  c == ' ' || c == '\t' || c == '\n' || c == '\x0c' || c == '\r'

/-- Converts groups of four 6-bit values into bytes; a trailing group of two
or three values yields one or two bytes. -/
def b64Groups : List Nat → List Nat
  | a :: b :: c :: d :: rest =>
    (a * 4 + b / 16) :: ((b % 16) * 16 + c / 4) :: ((c % 4) * 64 + d) :: b64Groups rest
  | [a, b] => [a * 4 + b / 16]
  | [a, b, c] => [a * 4 + b / 16, (b % 16) * 16 + c / 4]
  | _ => []

/-- Model of the browser `atob`: strips ASCII whitespace, tolerates padding
and unpadded input, decodes to a latin-1 string, and fails (throws) on an
invalid character or an impossible length. -/
def atob (s : String) : Option String :=
  let cs := s.toList.filter (fun c => !isB64Ws c)
  let cs :=
    if cs.length % 4 == 0 then
      if cs.reverse.take 2 = ['=', '='] then cs.take (cs.length - 2)
      else if cs.reverse.take 1 = ['='] then cs.take (cs.length - 1)
      else cs
    else cs
  if cs.length % 4 == 1 then none
  else if cs.any (fun c => (b64Val c).isNone) then none
  else some (String.mk ((b64Groups (cs.map (fun c => (b64Val c).getD 0))).map Char.ofNat))

/-! ## HTTP requests and responses -/

/-- A request as handed to `fetch`: everything the client code puts on the
wire. Bodies are the JSON value passed through `JSON.stringify`. -/
structure Request where
  url : String
  method : String
  headers : List (String × String)
  body : Option Json

/-- A response as the handlers observe it: the `ok` flag, the status code,
and the result of `res.json()` (`none` when the body fails to parse and the
library call throws). -/
structure NetResponse where
  ok : Bool
  status : Nat
  body : Option Json

/-- Message carried by the exception `res.json()` throws on an unparseable
body; the exact browser text is irrelevant to every claim. -/
def jsonParseErrorMessage : String := "Unexpected token in JSON"

/-- Message carried by the `TypeError` raised by property access on `null`;
the exact browser text is irrelevant to every claim. -/
def nullAccessErrorMessage : String := "Cannot read properties of null"

/-! ## Session store and authenticated fetch (`src/client/utils/auth.ts`) -/

/-- Authorization header value built by the template literal
`Bearer dollar-braces-token` applied to the `string | null` token. -/
def authHeader (stored : Option String) : String :=
  "Bearer " ++ jsInterpolate stored

/-- Request issued by `authFetcher` once the token check has passed. -/
def authRequest (token url : String) : Request :=
  { url := url, method := "GET",
    headers := [("Authorization", "Bearer " ++ token)], body := none }

/-- Embedding of `authFetcher` (src/client/utils/auth.ts): reads the stored
token, throws "Not authenticated" when it is falsy, otherwise issues exactly
one request and either returns the parsed JSON body or throws. The second
component is the trace of issued requests. -/
def authFetcher (stored : Option String) (url : String)
    (net : Request → NetResponse) : Except String Json × List Request :=
  match stored with
  | none => (Except.error "Not authenticated", [])
  | some t =>
    if t = "" then (Except.error "Not authenticated", [])
    else
      let req := authRequest t url
      let res := net req
      if res.ok then
        match res.body with
        | some j => (Except.ok j, [req])
        | none => (Except.error jsonParseErrorMessage, [req])
      else (Except.error "Error fetching data", [req])

/-! ## Role decoding (`src/client/components/Menu.tsx`) -/

/-- Accumulating worker for `splitOnDot`. -/
def splitOnDotAux : List Char → List Char → List String
  | acc, [] => [String.mk acc.reverse]
  | acc, '.' :: rest => String.mk acc.reverse :: splitOnDotAux [] rest
  | acc, c :: rest => splitOnDotAux (c :: acc) rest

/-- Splits a string on the dot character, as `token.split(".")` does (the
empty string splits to a singleton list holding the empty string). -/
def splitOnDot (s : String) : List String := splitOnDotAux [] s.toList

/-- Embedding of `getUserRole` from Menu.tsx: returns `null` for a falsy
token; otherwise evaluates `JSON.parse(atob(token.split(".")[1])).role`
inside a `try`, returning `null` on any throw. Indexing past the end of the
split, an invalid base64 segment, an unparseable payload and property
access on a `null` payload all throw and are caught; a payload without a
`role` field yields `undefined`. Both `null` and `undefined` are `none`. -/
def getUserRoleMenu : Option String → Option Json
  | none => none
  | some t =>
    if t = "" then none
    else
      match (splitOnDot t).get? 1 with
      | none => none
      | some seg =>
        match atob seg with
        | none => none
        | some decoded =>
          match jsonParse decoded with
          | none => none
          | some Json.null => none
          | some payload => jsGetField payload "role"

/-- Embedding of `getUserRole` from the storage-backed revision of
`src/utils/auth.ts`: reads the `user_role` storage key directly. -/
def getUserRoleStored (storedRole : Option String) : Option String := storedRole

/-! ## Navigation gate (`src/client/App.tsx`, `ProtectedRoute.tsx`) -/

/-- The views App.tsx declares routes for. -/
inductive Page where
  | home
  | login
  | about
  | user
  | doctors
  | patients
deriving DecidableEq

/-- Whether App.tsx nests the route under `ProtectedRoute`. -/
def requiresAuthRoute : Page → Bool
  | Page.user => true
  | Page.doctors => true
  | Page.patients => true
  | _ => false

/-- Outcome of requesting a view. -/
inductive RenderResult where
  | renders (p : Page)
  | redirectLogin
deriving DecidableEq

/-- Embedding of the route gate: public routes render directly; routes
nested under `ProtectedRoute` render the outlet when the stored token is
truthy and otherwise navigate to `/login`. No role is consulted. -/
def renderRoute (stored : Option String) (p : Page) : RenderResult :=
  match p with
  | Page.home => RenderResult.renders Page.home
  | Page.login => RenderResult.renders Page.login
  | Page.about => RenderResult.renders Page.about
  | _ =>
    if jsTruthyStr stored then RenderResult.renders p
    else RenderResult.redirectLogin

/-- Menu.tsx shows the Doctors navigation entry only when the decoded role
is the string "admin". -/
def menuShowsDoctorsLink (role : Option Json) : Bool :=
  match role with
  | some (Json.str s) => s = "admin"
  | _ => false

/-- Menu.tsx shows the Patients navigation entry when the decoded role is
"admin" or "doctor". -/
def menuShowsPatientsLink (role : Option Json) : Bool :=
  match role with
  | some (Json.str s) => s = "admin" || s = "doctor"
  | _ => false

/-- Modelled from the spec: the allow-list of roles per view derived from
the menu visibility rules ("Doctors - solo admin", "Patients - admin y
doctor"), with `none` meaning no role restriction. Used only to compare the
spec's gate with the code's gate. -/
def specAllowList : Page → Option (List String)
  | Page.doctors => some ["admin"]
  | Page.patients => some ["admin", "doctor"]
  | _ => none

/-- Modelled from the spec: "a view renders only if (view requires no auth)
OR (authenticated AND (view has no role restriction OR role ∈
allow-list))". -/
def specGateAllows (p : Page) (authed : Bool) (role : Option String) : Bool :=
  !requiresAuthRoute p ||
    (authed &&
      match specAllowList p with
      | none => true
      | some allowed =>
        match role with
        | some r => allowed.contains r
        | none => false)

/-! ## Entities and list filtering
(`src/client/pages/protected/Doctors.tsx`, `Pacients.tsx`) -/

/-- A doctor row as typed in `src/client/utils/types.ts`. -/
structure Doctor where
  username : String
  name : String
  specialty : Option String
deriving DecidableEq

/-- A patient row as typed in `src/client/utils/types.ts`. -/
structure Patient where
  username : String
  name : String
  birthdate : String
deriving DecidableEq

/-- Match test of one doctor against the lowered search term, from
`handleSearch` in Doctors.tsx (optional chaining makes a missing specialty
contribute `undefined`, which is falsy). -/
def doctorMatches (lowerSearch : String) (d : Doctor) : Bool :=
  jsIncludes (jsToLowerCase d.name) lowerSearch ||
  jsIncludes (jsToLowerCase d.username) lowerSearch ||
  (match d.specialty with
   | some sp => jsIncludes (jsToLowerCase sp) lowerSearch
   | none => false)

/-- Embedding of `handleSearch` from Doctors.tsx: a search term that trims
to nothing restores the full list; otherwise the list is filtered with the
lowercased, untrimmed term. -/
def handleSearchDoctors (doctors : List Doctor) (searchTerm : String) : List Doctor :=
  if jsTrim searchTerm = "" then doctors
  else doctors.filter (doctorMatches (jsToLowerCase searchTerm))

/-- Match test of one patient against the lowered search term, from
`handleSearch` in Pacients.tsx. -/
def patientMatches (lowerSearch : String) (p : Patient) : Bool :=
  jsIncludes (jsToLowerCase p.name) lowerSearch ||
  jsIncludes (jsToLowerCase p.username) lowerSearch ||
  jsIncludes (jsToLowerCase p.birthdate) lowerSearch

/-- Embedding of `handleSearch` from Pacients.tsx. -/
def handleSearchPatients (patients : List Patient) (searchTerm : String) : List Patient :=
  if jsTrim searchTerm = "" then patients
  else patients.filter (patientMatches (jsToLowerCase searchTerm))

/-- Modelled from the spec: "entities in `authoritative` whose name,
username, or specialty contains `s` case-insensitively", for comparison
with the code's filter. -/
def specFilterDoctors (doctors : List Doctor) (s : String) : List Doctor :=
  doctors.filter fun d =>
    jsIncludes (jsToLowerCase d.name) (jsToLowerCase s) ||
    jsIncludes (jsToLowerCase d.username) (jsToLowerCase s) ||
    (match d.specialty with
     | some sp => jsIncludes (jsToLowerCase sp) (jsToLowerCase s)
     | none => false)

/-- Modelled from the spec: the patient variant of the case-insensitive
containment filter (name, username, or birthdate). -/
def specFilterPatients (patients : List Patient) (s : String) : List Patient :=
  patients.filter fun p =>
    jsIncludes (jsToLowerCase p.name) (jsToLowerCase s) ||
    jsIncludes (jsToLowerCase p.username) (jsToLowerCase s) ||
    jsIncludes (jsToLowerCase p.birthdate) (jsToLowerCase s)

/-! ## Mutation error messages -/

/-- Shared shape of the simple handlers (`addDoctorForms`, `editPatient`,
`listDoctors`, `listPatients`): `errorData.detail || fallback`, where an
unparseable body makes `res.json()` throw and a `null` body makes the
property access throw, both caught by the outer `catch`. -/
def detailOrElse (res : NetResponse) (fallback : String) : String :=
  match res.body with
  | none => jsonParseErrorMessage
  | some Json.null => nullAccessErrorMessage
  | some errorData =>
    match jsGetField errorData "detail" with
    | some v => if jsTruthyJson v then jsDisplayString v else fallback
    | none => fallback

/-- Error message shown by the add-doctor form on a failed response. -/
def doctorCreateErrorMessage (res : NetResponse) : String :=
  detailOrElse res "Error creating doctor"

/-- Error message shown by the edit-doctor form on a failed response.
Modelled from the spec: `editDoctor.tsx` is imported by Doctors.tsx but is
not among the source files; the spec specifies the same
keep-form-open/surface-message behaviour as the other mutation forms, so it
follows the `editPatient.tsx` pattern. -/
def doctorUpdateErrorMessage (res : NetResponse) : String :=
  detailOrElse res "Error updating doctor"

/-- Error message shown by the edit-patient form on a failed response. -/
def patientUpdateErrorMessage (res : NetResponse) : String :=
  detailOrElse res "Error actualitzant el pacient"

/-- Error message shown by the doctor list on a failed delete. -/
def doctorDeleteErrorMessage (res : NetResponse) : String :=
  detailOrElse res "Error eliminant el doctor"

/-- Error message shown by the patient list on a failed delete. -/
def patientDeleteErrorMessage (res : NetResponse) : String :=
  detailOrElse res "Error eliminant el pacient"

/-- Renders one entry of a validation-error array: `err.msg` coerced to
text, `undefined` when absent; returns `none` when the element itself is
`null`, in which case the access throws. -/
def validationEntryMsg : Json → Option String
  | Json.null => none
  | e =>
    match jsGetField e "msg" with
    | some v => some (jsDisplayString v)
    | none => some "undefined"

/-- Joins strings with ", ", as `array.join(", ")` does. -/
def joinCommaSpace : List String → String
  | [] => ""
  | [m] => m
  | m :: rest => m ++ ", " ++ joinCommaSpace rest

/-- Maps `validationEntryMsg` across the array, failing if any access
throws. -/
def validationMsgs : List Json → Option (List String)
  | [] => some []
  | e :: rest =>
    match validationEntryMsg e with
    | none => none
    | some m =>
      match validationMsgs rest with
      | none => none
      | some ms => some (m :: ms)

/-- Embedding of the failure branch of `handleSubmit` in
`addPatientForm.tsx`: starts from the Catalan fallback, replaces it with a
string `detail`, else the joined `msg` entries of a non-empty array body,
else a truthy `message`; any throw inside the inner `try` (unparseable
body, property access on `null`) falls back to "Error HTTP status". -/
def patientCreateErrorMessage (res : NetResponse) : String :=
  match res.body with
  | none => "Error HTTP " ++ toString res.status
  | some Json.null => "Error HTTP " ++ toString res.status
  | some errorData =>
    match jsGetField errorData "detail" with
    | some (Json.str s) => s
    | _ =>
      match errorData with
      | Json.arr (e :: es) =>
        match validationMsgs (e :: es) with
        | none => "Error HTTP " ++ toString res.status
        | some msgs => joinCommaSpace msgs
      | _ =>
        match jsGetField errorData "message" with
        | some v =>
          if jsTruthyJson v then jsDisplayString v
          else "No s'ha pogut crear el pacient"
        | none => "No s'ha pogut crear el pacient"

/-! ## Doctors page state machine
(`Doctors.tsx`, `addDoctorForms.tsx`, `listDoctors.tsx`) -/

/-- Requests built by the doctor handlers. -/
def doctorsGetRequest (stored : Option String) : Request :=
  { url := "/api/doctors", method := "GET",
    headers := [("Authorization", authHeader stored),
                ("Content-Type", "application/json")],
    body := none }

/-- POST /api/doctors request from the add-doctor form; an empty specialty
field is sent as JSON `null` (`specialty || null`). -/
def doctorsPostRequest (stored : Option String)
    (username name specialty : String) : Request :=
  { url := "/api/doctors", method := "POST",
    headers := [("Authorization", authHeader stored),
                ("Content-Type", "application/json")],
    body := some (Json.obj
      [("username", Json.str username), ("name", Json.str name),
       ("specialty", if specialty = "" then Json.null else Json.str specialty)]) }

/-- PATCH request of the edit-doctor form. Modelled from the spec: the form
component is missing from the sources; the spec specifies a partial update
addressed by username. -/
def doctorPatchRequest (stored : Option String)
    (username name specialty : String) : Request :=
  { url := "/api/doctors/" ++ username, method := "PATCH",
    headers := [("Authorization", authHeader stored),
                ("Content-Type", "application/json")],
    body := some (Json.obj [("name", Json.str name),
                            ("specialty", Json.str specialty)]) }

/-- DELETE request issued by `handleConfirmDelete` in listDoctors.tsx. -/
def doctorDeleteRequest (stored : Option String) (username : String) : Request :=
  { url := "/api/doctors/" ++ username, method := "DELETE",
    headers := [("Authorization", authHeader stored)], body := none }

/-- Outcome of a triggered `fetchDoctors`/`fetchPatients` round-trip. -/
inductive FetchOutcome (α : Type) where
  | ok (data : List α)
  | fail

/-- State of the Doctors screen: the page component's hooks, the search
box's term (state of the `SearchDoctors` child), and the delete-dialog
state of the `ListDoctors` child. -/
structure DoctorsState where
  doctors : List Doctor
  filteredDoctors : List Doctor
  pageError : Option String
  showForm : Bool
  editingDoctor : Option Doctor
  addFormError : Option String
  editFormError : Option String
  searchTerm : String
  showModal : Bool
  doctorToDelete : Option Doctor
  listError : Option String
deriving DecidableEq

/-- Initial hook values of the Doctors screen. -/
def initDoctorsState : DoctorsState :=
  { doctors := [], filteredDoctors := [], pageError := none,
    showForm := false, editingDoctor := none, addFormError := none,
    editFormError := none, searchTerm := "", showModal := false,
    doctorToDelete := none, listError := none }

/-- UI events of the Doctors screen. Network completions carry the observed
response; events that trigger `fetchDoctors` also carry that round-trip's
outcome. -/
inductive DoctorsEvent where
  | fetchDone (out : FetchOutcome Doctor)
  | search (s : String)
  | clickAdd
  | clickEdit (d : Doctor)
  | cancelAdd
  | cancelEdit
  | submitAdd (username name specialty : String) (res : NetResponse)
      (refetch : FetchOutcome Doctor)
  | submitEdit (name specialty : String) (res : NetResponse)
      (refetch : FetchOutcome Doctor)
  | deleteClick (d : Doctor)
  | deleteCancel
  | deleteConfirm (res : NetResponse) (refetch : FetchOutcome Doctor)

/-- Effect of a completed `fetchDoctors` call: success replaces both the
authoritative and the filtered list with the payload; failure sets the page
error and leaves the lists untouched. Either way one GET is issued. -/
def applyFetchDoctors (stored : Option String) (st : DoctorsState) :
    FetchOutcome Doctor → DoctorsState × List Request
  | FetchOutcome.ok data =>
    ({ st with pageError := none, doctors := data, filteredDoctors := data },
     [doctorsGetRequest stored])
  | FetchOutcome.fail =>
    ({ st with pageError := some "No s'han pogut carregar els doctors" },
     [doctorsGetRequest stored])

/-- One UI event of the Doctors screen: the next state and the requests
issued while handling the event. Buttons that the markup disables
(`disabled=...showForm or editingDoctor not null...` on Add) leave the state
unchanged, and handlers guarded by a conditional render fire only when
their component is mounted. -/
def stepDoctors (stored : Option String) (st : DoctorsState) :
    DoctorsEvent → DoctorsState × List Request
  | DoctorsEvent.fetchDone out => applyFetchDoctors stored st out
  | DoctorsEvent.search s =>
    ({ st with searchTerm := s,
               filteredDoctors := handleSearchDoctors st.doctors s }, [])
  | DoctorsEvent.clickAdd =>
    if st.showForm || st.editingDoctor ≠ none then (st, [])
    else ({ st with showForm := true }, [])
  | DoctorsEvent.clickEdit d =>
    ({ st with showForm := false, editingDoctor := some d }, [])
  | DoctorsEvent.cancelAdd => ({ st with showForm := false }, [])
  | DoctorsEvent.cancelEdit => ({ st with editingDoctor := none }, [])
  | DoctorsEvent.submitAdd username name specialty res refetch =>
    if st.showForm = false then (st, [])
    else
      let req := doctorsPostRequest stored username name specialty
      if res.ok then
        let cleared := { st with addFormError := none, showForm := false }
        let next := applyFetchDoctors stored cleared refetch
        (next.1, req :: next.2)
      else
        ({ st with addFormError := some (doctorCreateErrorMessage res) }, [req])
  | DoctorsEvent.submitEdit name specialty res refetch =>
    match st.editingDoctor with
    | none => (st, [])
    | some d =>
      let req := doctorPatchRequest stored d.username name specialty
      if res.ok then
        let cleared := { st with editFormError := none, editingDoctor := none }
        let next := applyFetchDoctors stored cleared refetch
        (next.1, req :: next.2)
      else
        ({ st with editFormError := some (doctorUpdateErrorMessage res) }, [req])
  | DoctorsEvent.deleteClick d =>
    ({ st with doctorToDelete := some d, showModal := true }, [])
  | DoctorsEvent.deleteCancel =>
    ({ st with showModal := false, doctorToDelete := none }, [])
  | DoctorsEvent.deleteConfirm res refetch =>
    match st.doctorToDelete with
    | none => (st, [])
    | some d =>
      let req := doctorDeleteRequest stored d.username
      if res.ok then
        let cleared := { st with listError := none, showModal := false,
                                 doctorToDelete := none }
        let next := applyFetchDoctors stored cleared refetch
        (next.1, req :: next.2)
      else
        ({ st with showModal := false, doctorToDelete := none,
                   listError := some (doctorDeleteErrorMessage res) }, [req])

/-- Runs a sequence of Doctors-screen events from a state, keeping only the
final state. -/
def runDoctors (stored : Option String) (st : DoctorsState) :
    List DoctorsEvent → DoctorsState
  | [] => st
  | e :: rest => runDoctors stored (stepDoctors stored st e).1 rest

/-! ## Patients page state machine
(`Pacients.tsx`, `addPatientForm.tsx`, `editPatient.tsx`, `listPatients.tsx`) -/

/-- GET request of `fetchPatients`; the source passes the relative URL
"api/patients" (no leading slash). -/
def patientsGetRequest (stored : Option String) : Request :=
  { url := "api/patients", method := "GET",
    headers := [("Authorization", authHeader stored),
                ("Content-Type", "application/json")],
    body := none }

/-- POST /api/patients request of the add-patient form; the body key is
spelled `birthDate` in this form. -/
def patientsPostRequest (stored : Option String)
    (username name birthdate : String) : Request :=
  { url := "/api/patients", method := "POST",
    headers := [("Authorization", authHeader stored),
                ("Content-Type", "application/json")],
    body := some (Json.obj
      [("username", Json.str username), ("name", Json.str name),
       ("birthDate", Json.str birthdate)]) }

/-- PATCH request of the edit-patient form (body key `birthdate`). -/
def patientPatchRequest (stored : Option String)
    (username name birthdate : String) : Request :=
  { url := "/api/patients/" ++ username, method := "PATCH",
    headers := [("Authorization", authHeader stored),
                ("Content-Type", "application/json")],
    body := some (Json.obj [("name", Json.str name),
                            ("birthdate", Json.str birthdate)]) }

/-- DELETE request issued by `handleConfirmDelete` in listPatients.tsx. -/
def patientDeleteRequest (stored : Option String) (username : String) : Request :=
  { url := "/api/patients/" ++ username, method := "DELETE",
    headers := [("Authorization", authHeader stored)], body := none }

/-- State of the Patients screen, mirroring `DoctorsState`. -/
structure PatientsState where
  patients : List Patient
  filteredPatients : List Patient
  pageError : Option String
  showForm : Bool
  editingPatient : Option Patient
  addFormError : Option String
  editFormError : Option String
  searchTerm : String
  showModal : Bool
  patientToDelete : Option Patient
  listError : Option String
deriving DecidableEq

/-- Initial hook values of the Patients screen. -/
def initPatientsState : PatientsState :=
  { patients := [], filteredPatients := [], pageError := none,
    showForm := false, editingPatient := none, addFormError := none,
    editFormError := none, searchTerm := "", showModal := false,
    patientToDelete := none, listError := none }

/-- UI events of the Patients screen. -/
inductive PatientsEvent where
  | fetchDone (out : FetchOutcome Patient)
  | search (s : String)
  | clickAdd
  | clickEdit (p : Patient)
  | cancelAdd
  | cancelEdit
  | submitAdd (username name birthdate : String) (res : NetResponse)
      (refetch : FetchOutcome Patient)
  | submitEdit (name birthdate : String) (res : NetResponse)
      (refetch : FetchOutcome Patient)
  | deleteClick (p : Patient)
  | deleteCancel
  | deleteConfirm (res : NetResponse) (refetch : FetchOutcome Patient)

/-- Effect of a completed `fetchPatients` call. -/
def applyFetchPatients (stored : Option String) (st : PatientsState) :
    FetchOutcome Patient → PatientsState × List Request
  | FetchOutcome.ok data =>
    ({ st with pageError := none, patients := data, filteredPatients := data },
     [patientsGetRequest stored])
  | FetchOutcome.fail =>
    ({ st with pageError := some "No s'han pogut carregar els pacients" },
     [patientsGetRequest stored])

/-- One UI event of the Patients screen. The Add button of Pacients.tsx is
disabled only by `showForm` — unlike Doctors.tsx it stays enabled while the
edit form is open, so `clickAdd` fires there and leaves `editingPatient`
untouched. -/
def stepPatients (stored : Option String) (st : PatientsState) :
    PatientsEvent → PatientsState × List Request
  | PatientsEvent.fetchDone out => applyFetchPatients stored st out
  | PatientsEvent.search s =>
    ({ st with searchTerm := s,
               filteredPatients := handleSearchPatients st.patients s }, [])
  | PatientsEvent.clickAdd =>
    if st.showForm then (st, [])
    else ({ st with showForm := true }, [])
  | PatientsEvent.clickEdit p =>
    ({ st with showForm := false, editingPatient := some p }, [])
  | PatientsEvent.cancelAdd => ({ st with showForm := false }, [])
  | PatientsEvent.cancelEdit => ({ st with editingPatient := none }, [])
  | PatientsEvent.submitAdd username name birthdate res refetch =>
    if st.showForm = false then (st, [])
    else
      let req := patientsPostRequest stored username name birthdate
      if res.ok then
        let cleared := { st with addFormError := none, showForm := false }
        let next := applyFetchPatients stored cleared refetch
        (next.1, req :: next.2)
      else
        ({ st with addFormError := some (patientCreateErrorMessage res) }, [req])
  | PatientsEvent.submitEdit name birthdate res refetch =>
    match st.editingPatient with
    | none => (st, [])
    | some p =>
      let req := patientPatchRequest stored p.username name birthdate
      if res.ok then
        let cleared := { st with editFormError := none, editingPatient := none }
        let next := applyFetchPatients stored cleared refetch
        (next.1, req :: next.2)
      else
        ({ st with editFormError := some (patientUpdateErrorMessage res) }, [req])
  | PatientsEvent.deleteClick p =>
    ({ st with patientToDelete := some p, showModal := true }, [])
  | PatientsEvent.deleteCancel =>
    ({ st with showModal := false, patientToDelete := none }, [])
  | PatientsEvent.deleteConfirm res refetch =>
    match st.patientToDelete with
    | none => (st, [])
    | some p =>
      let req := patientDeleteRequest stored p.username
      if res.ok then
        let cleared := { st with listError := none, showModal := false,
                                 patientToDelete := none }
        let next := applyFetchPatients stored cleared refetch
        (next.1, req :: next.2)
      else
        ({ st with showModal := false, patientToDelete := none,
                   listError := some (patientDeleteErrorMessage res) }, [req])

/-- Runs a sequence of Patients-screen events from a state. -/
def runPatients (stored : Option String) (st : PatientsState) :
    List PatientsEvent → PatientsState
  | [] => st
  | e :: rest => runPatients stored (stepPatients stored st e).1 rest

/-! ## Concrete fixtures used by witnesses and counterexamples -/

/-- Network stub that answers every request with an empty 200 response. -/
def netOk200 : Request → NetResponse :=
  fun _ => { ok := true, status := 200, body := some (Json.arr []) }

/-- The 409 conflict response of the spec's duplicate-username scenario. -/
def res409 : NetResponse :=
  { ok := false, status := 409,
    body := some (Json.obj [("detail", Json.str "username exists")]) }

/-- Network stub that answers every request with the 409 conflict. -/
def net409 : Request → NetResponse := fun _ => res409

/-- A three-part token whose middle segment is the base64 encoding of the
payload with role "doctor". -/
def doctorJwt : String := "header.eyJyb2xlIjoiZG9jdG9yIn0.sig"

/-- Sample doctor with a specialty. -/
def aliceD : Doctor :=
  { username := "alice", name := "Alice Vidal", specialty := some "Cardiologia" }

/-- Sample doctor without a specialty and without any space in his fields. -/
def bobD : Doctor := { username := "bob", name := "Bob", specialty := none }

/-- Sample patient. -/
def johnP : Patient :=
  { username := "jdoe", name := "John Doe", birthdate := "1990-01-01" }

/-! ## Claims -/

/-- C1 counterexample: a stored token whose decoded role claim is "doctor"
renders the doctors-only view, although the spec's gate denies that role
there — direct navigation is not denied or redirected. -/
theorem C1_counterexample :
    getUserRoleMenu (some doctorJwt) = some (Json.str "doctor") ∧
    specGateAllows Page.doctors true (some "doctor") = false ∧
    renderRoute (some doctorJwt) Page.doctors = RenderResult.renders Page.doctors :=
  ⟨rfl, rfl, rfl⟩

/-- C1 (amended): the navigation gate checks only token truthiness — a view
nested under `ProtectedRoute` renders exactly when a truthy token is
stored, otherwise it redirects to login, and no role is consulted; role
restrictions exist only as menu-entry visibility (Doctors entry for role
"admin" only). -/
theorem C1_gate_checks_token_only :
    (∀ (stored : Option String) (p : Page),
      renderRoute stored p =
        if requiresAuthRoute p && !jsTruthyStr stored
        then RenderResult.redirectLogin
        else RenderResult.renders p) ∧
    menuShowsDoctorsLink (some (Json.str "doctor")) = false ∧
    menuShowsDoctorsLink (some (Json.str "admin")) = true := by
  refine ⟨?_, rfl, rfl⟩
  intro stored p
  cases p <;> cases h : jsTruthyStr stored <;>
    simp [renderRoute, requiresAuthRoute, h]

/-- C2 counterexample: an empty-string token is present in storage, yet
`authFetcher` yields the authentication failure and issues no request. -/
theorem C2_counterexample :
    (some "" ≠ (none : Option String)) ∧
    authFetcher (some "") "/api/doctors" netOk200 =
      (Except.error "Not authenticated", []) :=
  ⟨by simp, rfl⟩

/-- C2 (amended): with no stored token or a stored empty string (both falsy
in JavaScript), `authFetcher` fails with "Not authenticated" and issues no
network call; with a non-empty token it issues exactly one request carrying
the header Authorization: Bearer token. -/
theorem C2_authFetcher_token_truthiness :
    (∀ (url : String) (net : Request → NetResponse),
      authFetcher none url net = (Except.error "Not authenticated", []) ∧
      authFetcher (some "") url net = (Except.error "Not authenticated", [])) ∧
    (∀ (t url : String) (net : Request → NetResponse), t ≠ "" →
      (authFetcher (some t) url net).2 = [authRequest t url]) := by
  constructor
  · intro url net
    exact ⟨rfl, rfl⟩
  · intro t url net ht
    simp only [authFetcher, if_neg ht]
    split
    · split <;> rfl
    · rfl

/-- C2 witness: the amended theorem at a concrete non-empty token. -/
theorem C2_witness :
    (authFetcher (some "tok123") "/api/doctors" netOk200).2 =
      [authRequest "tok123" "/api/doctors"] :=
  C2_authFetcher_token_truthiness.2 "tok123" "/api/doctors" netOk200 (by decide)

/-- C3 counterexample: the whitespace-only filter " " restores the full
list, although no field of the listed doctor contains a space, so the
claimed case-insensitive-containment characterisation fails. -/
theorem C3_counterexample :
    handleSearchDoctors [bobD] " " = [bobD] ∧
    specFilterDoctors [bobD] " " = [] :=
  ⟨rfl, rfl⟩

/-- C3 (amended): for every filter string whose trim is empty (the empty
string and whitespace-only strings), the derived list equals the
authoritative list; for every other filter string the derived list is
exactly the entities whose name, username, or specialty (doctors) /
birthdate (patients) contains the untrimmed string case-insensitively,
preserving order. -/
theorem C3_filter_characterisation :
    ∀ (s : String) (ds : List Doctor) (ps : List Patient),
      handleSearchDoctors ds s =
        (if jsTrim s = "" then ds else specFilterDoctors ds s) ∧
      handleSearchPatients ps s =
        (if jsTrim s = "" then ps else specFilterPatients ps s) := by
  intro s ds ps
  constructor
  · unfold handleSearchDoctors specFilterDoctors
    split <;> rfl
  · unfold handleSearchPatients specFilterPatients
    split <;> rfl

/-- C9: role decoding is total and yields `none` on every malformed input:
an absent token, a falsy token, a token without a second dot-separated
segment, an invalid base64 segment, a segment that decodes to non-JSON,
and a payload without a role field all give `none`, while a well-formed
token yields its role claim; the storage-backed variant simply returns the
stored value. -/
theorem C9_getUserRole_total :
    getUserRoleMenu none = none ∧
    getUserRoleMenu (some "") = none ∧
    (∀ t : String, (splitOnDot t).get? 1 = none → getUserRoleMenu (some t) = none) ∧
    getUserRoleMenu (some "justonepart") = none ∧
    getUserRoleMenu (some "a.!!!.c") = none ∧
    getUserRoleMenu (some "a.bm90anNvbg.c") = none ∧
    getUserRoleMenu (some "a.eyJ4IjoxfQ.c") = none ∧
    getUserRoleMenu (some doctorJwt) = some (Json.str "doctor") ∧
    (∀ storedRole : Option String, getUserRoleStored storedRole = storedRole) := by
  refine ⟨rfl, rfl, ?_, rfl, rfl, rfl, rfl, rfl, fun _ => rfl⟩
  intro t h
  by_cases ht : t = ""
  · subst ht
    rfl
  · simp only [getUserRoleMenu, if_neg ht, h]

/-- C9 witness: the quantified malformed-token conjunct applied to a token
with no dot at all. -/
theorem C9_witness : getUserRoleMenu (some "nodots") = none :=
  C9_getUserRole_total.2.2.1 "nodots" rfl

/-- Event sequence of the C4 counterexample: load two doctors, filter for
"al", then complete a refresh while the filter is still in the box. -/
def c4FinalState : DoctorsState :=
  runDoctors none initDoctorsState
    [DoctorsEvent.fetchDone (FetchOutcome.ok [aliceD, bobD]),
     DoctorsEvent.search "al",
     DoctorsEvent.fetchDone (FetchOutcome.ok [aliceD, bobD])]

/-- C4 counterexample: a refresh that completes while the non-empty filter
"al" is active leaves the derived list equal to the full new authoritative
list, not to that list filtered by the active filter text. -/
theorem C4_counterexample :
    c4FinalState.searchTerm = "al" ∧
    c4FinalState.filteredDoctors = [aliceD, bobD] ∧
    handleSearchDoctors c4FinalState.doctors c4FinalState.searchTerm = [aliceD] ∧
    c4FinalState.filteredDoctors ≠
      handleSearchDoctors c4FinalState.doctors c4FinalState.searchTerm :=
  ⟨rfl, rfl, rfl, by decide⟩

/-- C4 (amended): the derived list is recomputed from the authoritative
list only by `setFilter`; a successful refresh replaces both the
authoritative and the derived list with the fetched data, discarding any
active filter text, so after a refresh with a non-empty filter the derived
list is the full new authoritative list rather than its filtered
subsequence. -/
theorem C4_derived_recomputation :
    (∀ (stored : Option String) (st : DoctorsState) (s : String),
      (stepDoctors stored st (DoctorsEvent.search s)).1.filteredDoctors =
        handleSearchDoctors st.doctors s) ∧
    (∀ (stored : Option String) (st : DoctorsState) (data : List Doctor),
      (stepDoctors stored st (DoctorsEvent.fetchDone (FetchOutcome.ok data))).1.doctors
          = data ∧
      (stepDoctors stored st
          (DoctorsEvent.fetchDone (FetchOutcome.ok data))).1.filteredDoctors = data) ∧
    (∀ (stored : Option String) (st : PatientsState) (s : String),
      (stepPatients stored st (PatientsEvent.search s)).1.filteredPatients =
        handleSearchPatients st.patients s) ∧
    (∀ (stored : Option String) (st : PatientsState) (data : List Patient),
      (stepPatients stored st (PatientsEvent.fetchDone (FetchOutcome.ok data))).1.patients
          = data ∧
      (stepPatients stored st
          (PatientsEvent.fetchDone (FetchOutcome.ok data))).1.filteredPatients = data) :=
  ⟨fun _ _ _ => rfl, fun _ _ _ => ⟨rfl, rfl⟩,
   fun _ _ _ => rfl, fun _ _ _ => ⟨rfl, rfl⟩⟩

/-- Doctors screen with the add form open. -/
def doctorsStateFormOpen : DoctorsState := { initDoctorsState with showForm := true }

/-- Patients screen with the edit form open on the sample patient. -/
def patientsStateEditing : PatientsState :=
  { initPatientsState with editingPatient := some johnP }

/-- C5: a failed create (doctors add form) or update (patient edit form)
leaves every piece of state unchanged except the inline form error — the
form stays open, the lists are untouched, and only the single mutation
request is issued, so no refresh is triggered; for the 409 response with
detail "username exists" the surfaced message is exactly that detail. -/
theorem C5_mutation_failure_keeps_form :
    (∀ (stored : Option String) (st : DoctorsState) (u n sp : String)
        (res : NetResponse) (refetch : FetchOutcome Doctor),
      res.ok = false → st.showForm = true →
      stepDoctors stored st (DoctorsEvent.submitAdd u n sp res refetch) =
        ({ st with addFormError := some (doctorCreateErrorMessage res) },
         [doctorsPostRequest stored u n sp])) ∧
    (∀ (stored : Option String) (st : PatientsState) (p : Patient) (n bd : String)
        (res : NetResponse) (refetch : FetchOutcome Patient),
      res.ok = false → st.editingPatient = some p →
      stepPatients stored st (PatientsEvent.submitEdit n bd res refetch) =
        ({ st with editFormError := some (patientUpdateErrorMessage res) },
         [patientPatchRequest stored p.username n bd])) ∧
    doctorCreateErrorMessage res409 = "username exists" ∧
    patientUpdateErrorMessage res409 = "username exists" := by
  have hmsg : ∀ fb : String, detailOrElse res409 fb = "username exists" := by
    intro fb
    simp [detailOrElse, res409, jsGetField, lookupField, jsTruthyJson,
          jsDisplayString]
  refine ⟨?_, ?_, hmsg "Error creating doctor", hmsg "Error actualitzant el pacient"⟩
  · intro stored st u n sp res refetch hok hsf
    simp [stepDoctors, hsf, hok]
  · intro stored st p n bd res refetch hok hep
    simp [stepPatients, hep, hok]

/-- C5 witness: the doctors conjunct at the concrete 409 scenario. -/
theorem C5_witness :
    stepDoctors none doctorsStateFormOpen
        (DoctorsEvent.submitAdd "drwho" "Who" "" res409 FetchOutcome.fail) =
      ({ doctorsStateFormOpen with
          addFormError := some (doctorCreateErrorMessage res409) },
       [doctorsPostRequest none "drwho" "Who" ""]) :=
  C5_mutation_failure_keeps_form.1 none doctorsStateFormOpen "drwho" "Who" ""
    res409 FetchOutcome.fail rfl rfl

/-- C6: on the Patients screen, clicking Edit on a patient and then the Add
button (which Pacients.tsx disables only while the add form itself is open)
yields a state where both the add form and the edit form are visible, while
the identical event sequence on the Doctors screen is blocked because
Doctors.tsx also disables Add while an edit is in progress — the
at-most-one-form invariant the claim states, implemented on the Doctors
screen, is violated by the Patients screen. -/
theorem C6_patients_shows_both_forms :
    (runPatients none initPatientsState
        [PatientsEvent.clickEdit johnP, PatientsEvent.clickAdd]).showForm = true ∧
    (runPatients none initPatientsState
        [PatientsEvent.clickEdit johnP, PatientsEvent.clickAdd]).editingPatient
        = some johnP ∧
    (runDoctors none initDoctorsState
        [DoctorsEvent.clickEdit aliceD, DoctorsEvent.clickAdd]).showForm = false ∧
    (runDoctors none initDoctorsState
        [DoctorsEvent.clickEdit aliceD, DoctorsEvent.clickAdd]).editingDoctor
        = some aliceD :=
  ⟨rfl, rfl, rfl, rfl⟩

/-- C7 counterexample: on a 409 response whose body is a structured
error object, `authFetcher` fails with the fixed message "Error fetching
data", not with a message composed from the body and the status. -/
theorem C7_counterexample :
    authFetcher (some "tok") "/api/patients" net409 =
      (Except.error "Error fetching data", [authRequest "tok" "/api/patients"]) ∧
    "Error fetching data" ≠ "username exists" :=
  ⟨rfl, by decide⟩

/-- C7 (amended): for every non-success response, `authFetcher` itself
fails with the fixed message "Error fetching data", carrying neither the
body's message nor the status; the structured composition the claim
describes — a string `detail`, the joined `msg` entries of a validation
array, a truthy `message`, with fallback "HTTP status" — is implemented in
the add-patient form's submit handler. -/
theorem C7_error_composition_location :
    (∀ (t url : String) (net : Request → NetResponse), t ≠ "" →
      (net (authRequest t url)).ok = false →
      authFetcher (some t) url net =
        (Except.error "Error fetching data", [authRequest t url])) ∧
    (∀ status : Nat,
      patientCreateErrorMessage { ok := false, status := status, body := none } =
        "Error HTTP " ++ toString status) ∧
    (∀ (status : Nat) (s : String),
      patientCreateErrorMessage
          { ok := false, status := status,
            body := some (Json.obj [("detail", Json.str s)]) } = s) ∧
    patientCreateErrorMessage
        { ok := false, status := 422,
          body := some (Json.arr [Json.obj [("msg", Json.str "field required")],
                                  Json.obj [("msg", Json.str "invalid date")]]) } =
      "field required, invalid date" ∧
    (∀ (status : Nat) (s : String), s ≠ "" →
      patientCreateErrorMessage
          { ok := false, status := status,
            body := some (Json.obj [("message", Json.str s)]) } = s) := by
  refine ⟨?_, fun _ => rfl, fun _ _ => rfl, ?_, ?_⟩
  case refine_2 =>
    simp [patientCreateErrorMessage, jsGetField, lookupField, validationMsgs,
          validationEntryMsg, jsDisplayString, joinCommaSpace]
  · intro t url net ht hok
    simp [authFetcher, ht, hok]
  · intro status s hs
    simp [patientCreateErrorMessage, jsGetField, lookupField, jsTruthyJson,
          jsDisplayString, hs]

/-- C7 witness: the authFetcher conjunct at a concrete token and the 409
network stub. -/
theorem C7_witness :
    authFetcher (some "tok") "/api/users/me" net409 =
      (Except.error "Error fetching data", [authRequest "tok" "/api/users/me"]) :=
  C7_error_composition_location.1 "tok" "/api/users/me" net409 (by decide) rfl

/-- Successful empty 200 response used by delete-flow witnesses. -/
def resOk : NetResponse := { ok := true, status := 200, body := some Json.null }

/-- Doctors screen with the confirmation dialog open on the sample
doctor. -/
def doctorsStateToDelete : DoctorsState :=
  { initDoctorsState with doctorToDelete := some bobD, showModal := true }

/-- C8: cancelling the confirmation dialog returns the pending-delete state
to none without issuing any request; a DELETE request is issued only by the
confirm event (no other event ever issues one, and confirming with no
pending entity issues nothing); and an accepted confirmation with a
successful response issues exactly the DELETE followed by the refresh
GET. -/
theorem C8_delete_confirmation_flow :
    (∀ (stored : Option String) (st : DoctorsState),
      stepDoctors stored st DoctorsEvent.deleteCancel =
        ({ st with showModal := false, doctorToDelete := none }, [])) ∧
    (∀ (stored : Option String) (st : PatientsState),
      stepPatients stored st PatientsEvent.deleteCancel =
        ({ st with showModal := false, patientToDelete := none }, [])) ∧
    (∀ (stored : Option String) (st : DoctorsState) (e : DoctorsEvent),
      ((stepDoctors stored st e).2.any (fun r => r.method == "DELETE")) = true →
      ∃ res refetch, e = DoctorsEvent.deleteConfirm res refetch) ∧
    (∀ (stored : Option String) (st : PatientsState) (e : PatientsEvent),
      ((stepPatients stored st e).2.any (fun r => r.method == "DELETE")) = true →
      ∃ res refetch, e = PatientsEvent.deleteConfirm res refetch) ∧
    (∀ (stored : Option String) (st : DoctorsState) (res : NetResponse)
        (refetch : FetchOutcome Doctor),
      st.doctorToDelete = none →
      stepDoctors stored st (DoctorsEvent.deleteConfirm res refetch) = (st, [])) ∧
    (∀ (stored : Option String) (st : DoctorsState) (d : Doctor)
        (res : NetResponse) (refetch : FetchOutcome Doctor),
      st.doctorToDelete = some d → res.ok = true →
      (stepDoctors stored st (DoctorsEvent.deleteConfirm res refetch)).2 =
        [doctorDeleteRequest stored d.username, doctorsGetRequest stored]) ∧
    (∀ (stored : Option String) (st : PatientsState) (p : Patient)
        (res : NetResponse) (refetch : FetchOutcome Patient),
      st.patientToDelete = some p → res.ok = true →
      (stepPatients stored st (PatientsEvent.deleteConfirm res refetch)).2 =
        [patientDeleteRequest stored p.username, patientsGetRequest stored]) := by
  refine ⟨fun _ _ => rfl, fun _ _ => rfl, ?_, ?_, ?_, ?_, ?_⟩
  · intro stored st e h
    cases e with
    | deleteConfirm res refetch => exact ⟨res, refetch, rfl⟩
    | fetchDone out =>
      exfalso
      cases out <;>
        simp [stepDoctors, applyFetchDoctors, doctorsGetRequest] at h
    | search s => simp [stepDoctors] at h
    | clickAdd =>
      exfalso
      rw [stepDoctors] at h
      split at h <;> simp at h
    | clickEdit d => simp [stepDoctors] at h
    | cancelAdd => simp [stepDoctors] at h
    | cancelEdit => simp [stepDoctors] at h
    | submitAdd u n sp res refetch =>
      exfalso
      rw [stepDoctors] at h
      split at h
      · simp at h
      · split at h <;> cases refetch <;>
          simp [applyFetchDoctors, doctorsPostRequest, doctorsGetRequest] at h
    | submitEdit n sp res refetch =>
      exfalso
      rw [stepDoctors] at h
      split at h
      · simp at h
      · split at h <;> cases refetch <;>
          simp [applyFetchDoctors, doctorPatchRequest, doctorsGetRequest] at h
    | deleteClick d => simp [stepDoctors] at h
    | deleteCancel => simp [stepDoctors] at h
  · intro stored st e h
    cases e with
    | deleteConfirm res refetch => exact ⟨res, refetch, rfl⟩
    | fetchDone out =>
      exfalso
      cases out <;>
        simp [stepPatients, applyFetchPatients, patientsGetRequest] at h
    | search s => simp [stepPatients] at h
    | clickAdd =>
      exfalso
      rw [stepPatients] at h
      split at h <;> simp at h
    | clickEdit p => simp [stepPatients] at h
    | cancelAdd => simp [stepPatients] at h
    | cancelEdit => simp [stepPatients] at h
    | submitAdd u n bd res refetch =>
      exfalso
      rw [stepPatients] at h
      split at h
      · simp at h
      · split at h <;> cases refetch <;>
          simp [applyFetchPatients, patientsPostRequest, patientsGetRequest] at h
    | submitEdit n bd res refetch =>
      exfalso
      rw [stepPatients] at h
      split at h
      · simp at h
      · split at h <;> cases refetch <;>
          simp [applyFetchPatients, patientPatchRequest, patientsGetRequest] at h
    | deleteClick p => simp [stepPatients] at h
    | deleteCancel => simp [stepPatients] at h
  · intro stored st res refetch hnone
    simp [stepDoctors, hnone]
  · intro stored st d res refetch hsome hok
    cases refetch <;> simp [stepDoctors, hsome, hok, applyFetchDoctors]
  · intro stored st p res refetch hsome hok
    cases refetch <;> simp [stepPatients, hsome, hok, applyFetchPatients]

/-- C8 witness: an accepted confirmation on a pending doctor with a 200
response issues the DELETE and then the refresh GET. -/
theorem C8_witness :
    (stepDoctors none doctorsStateToDelete
        (DoctorsEvent.deleteConfirm resOk (FetchOutcome.ok []))).2 =
      [doctorDeleteRequest none bobD.username, doctorsGetRequest none] :=
  C8_delete_confirmation_flow.2.2.2.2.2.1 none doctorsStateToDelete bobD resOk
    (FetchOutcome.ok []) rfl rfl

/-- C10: with no token in storage, the page's own fetch and mutation
handlers still issue their requests, interpolating the null token into the
header as "Bearer null": the list fetch always issues its GET, an open add
form submits its POST, a pending confirmed delete issues its DELETE — each
carrying Authorization "Bearer null" — and a failed fetch surfaces the
fixed Catalan message rather than any NotAuthenticated error; by contrast
`authFetcher` with no token issues nothing. -/
theorem C10_handlers_bypass_wrapper :
    (∀ (st : DoctorsState) (out : FetchOutcome Doctor),
      (stepDoctors none st (DoctorsEvent.fetchDone out)).2 =
        [doctorsGetRequest none]) ∧
    (doctorsGetRequest none).headers =
      [("Authorization", "Bearer null"), ("Content-Type", "application/json")] ∧
    (∀ (st : DoctorsState) (u n sp : String) (res : NetResponse)
        (refetch : FetchOutcome Doctor),
      st.showForm = true →
      (stepDoctors none st (DoctorsEvent.submitAdd u n sp res refetch)).2.head? =
        some (doctorsPostRequest none u n sp)) ∧
    (∀ u n sp : String,
      (doctorsPostRequest none u n sp).headers.head? =
        some ("Authorization", "Bearer null")) ∧
    (∀ (st : DoctorsState) (d : Doctor) (res : NetResponse)
        (refetch : FetchOutcome Doctor),
      st.doctorToDelete = some d →
      (stepDoctors none st (DoctorsEvent.deleteConfirm res refetch)).2.head? =
        some (doctorDeleteRequest none d.username)) ∧
    (∀ u : String,
      (doctorDeleteRequest none u).headers = [("Authorization", "Bearer null")]) ∧
    (∀ st : DoctorsState,
      (stepDoctors none st (DoctorsEvent.fetchDone FetchOutcome.fail)).1.pageError =
        some "No s'han pogut carregar els doctors") ∧
    (∀ (url : String) (net : Request → NetResponse),
      (authFetcher none url net).2 = []) := by
  refine ⟨?_, rfl, ?_, fun _ _ _ => rfl, ?_, fun _ => rfl, fun _ => rfl,
    fun _ _ => rfl⟩
  · intro st out
    cases out <;> rfl
  · intro st u n sp res refetch hsf
    cases hok : res.ok <;> cases refetch <;>
      simp [stepDoctors, hsf, hok, applyFetchDoctors]
  · intro st d res refetch hsome
    cases hok : res.ok <;> cases refetch <;>
      simp [stepDoctors, hsome, hok, applyFetchDoctors]

/-- C10 witness: with no token and the add form open, submitting the add
form issues the POST request first, with the "Bearer null" header. -/
theorem C10_witness :
    (stepDoctors none doctorsStateFormOpen
        (DoctorsEvent.submitAdd "drwho" "Who" "" res409 FetchOutcome.fail)).2.head? =
      some (doctorsPostRequest none "drwho" "Who" "") :=
  C10_handlers_bypass_wrapper.2.2.1 doctorsStateFormOpen "drwho" "Who" "" res409
    FetchOutcome.fail rfl

end Clinic
